import Mathlib

/-!
Shallow embedding of the `objectify` Go package (github.com/orme292/objectify).

The filesystem is modelled as a finite association list from path strings to
entries.  Each entry carries the raw Go `fs.FileMode` bits (as a `Nat`), a
size, a modification time (as an `Int`, with the Go zero `time.Time` modelled
as `0`), the symlink target read by the platform, and booleans describing the
outcome of each I/O operation the code performs on the entry (open for the
readability probe, open and stream for each digest).  Digest values are part
of the entry: the model does not recompute SHA-256/MD5, it records the digest
the streaming computation would produce, which is all the verified claims
depend on.

`filepath.EvalSymlinks` is modelled by `evalSymlinks`, which performs the full
chain resolution the Go standard library performs, with an explicit fuel
parameter standing for the platform's own loop/depth protection (the Go code
imposes no bound of its own).
-/

namespace Objectify

/-- Go constant `EMPTY = ""` from the utility file. -/
def EMPTY : String := ""

/-- `os.ModeDir` (bit 31 of `fs.FileMode`). -/
def MODE_DIR : Nat := 2 ^ 31

/-- `os.ModeTemporary` (bit 28). -/
def MODE_TEMPORARY : Nat := 2 ^ 28

/-- `os.ModeSymlink` (bit 27). -/
def MODE_SYMLINK : Nat := 2 ^ 27

/-- `os.ModeDevice` (bit 26). -/
def MODE_DEVICE : Nat := 2 ^ 26

/-- `os.ModeNamedPipe` (bit 25). -/
def MODE_NAMED_PIPE : Nat := 2 ^ 25

/-- `os.ModeSocket` (bit 24). -/
def MODE_SOCKET : Nat := 2 ^ 24

/-- `os.ModeCharDevice` (bit 21). -/
def MODE_CHAR_DEVICE : Nat := 2 ^ 21

/-- `os.ModeIrregular` (bit 19). -/
def MODE_IRREGULAR : Nat := 2 ^ 19

/-- `os.ModeType = ModeDir | ModeSymlink | ModeNamedPipe | ModeSocket |
ModeDevice | ModeCharDevice | ModeIrregular`. -/
def MODE_TYPE : Nat :=
  MODE_DIR ||| MODE_SYMLINK ||| MODE_NAMED_PIPE ||| MODE_SOCKET |||
    MODE_DEVICE ||| MODE_CHAR_DEVICE ||| MODE_IRREGULAR

/-- `info.IsDir()` on raw mode bits. -/
def isDirMode (m : Nat) : Bool := decide (m &&& MODE_DIR ≠ 0)

/-- `mode & os.ModeSymlink != 0` on raw mode bits. -/
def isSymlinkMode (m : Nat) : Bool := decide (m &&& MODE_SYMLINK ≠ 0)

/-- `EntMode` is a Go string type (`type EntMode string`); its zero value is
the empty string, exactly as in Go. -/
abbrev EntMode := String

/-- `EntModeDir`. -/
def EntModeDir : EntMode := "dir"

/-- `EntModeLink`. -/
def EntModeLink : EntMode := "link"

/-- `EntModeRegular`. -/
def EntModeRegular : EntMode := "regular_file"

/-- `EntModeTemp`. -/
def EntModeTemp : EntMode := "temp_file"

/-- `EntModePipe`. -/
def EntModePipe : EntMode := "fifo_pipe"

/-- `EntModeSocket`. -/
def EntModeSocket : EntMode := "unix_socket"

/-- `EntModeDevice`. -/
def EntModeDevice : EntMode := "device_file"

/-- `EntModeIrregular`. -/
def EntModeIrregular : EntMode := "irregular_file"

/-- `EntModeOther`. -/
def EntModeOther : EntMode := "other"

/-- `EntModeErrored`. -/
def EntModeErrored : EntMode := "unknown"

/-- `getEntModeWithInfo` from `type_enttype.go` / part_003: classification of
raw `fs.FileMode` bits by a fixed chain of tests. -/
def getEntModeWithInfo (info : Nat) : EntMode :=
  if info &&& MODE_DIR ≠ 0 then EntModeDir
  else if info &&& MODE_TYPE = 0 then EntModeRegular
  else if info &&& MODE_SYMLINK ≠ 0 then EntModeLink
  else if info &&& MODE_TEMPORARY ≠ 0 then EntModeTemp
  else if info &&& MODE_NAMED_PIPE ≠ 0 then EntModePipe
  else if info &&& MODE_SOCKET ≠ 0 then EntModeSocket
  else if info &&& MODE_DEVICE ≠ 0 then EntModeDevice
  else if info &&& MODE_IRREGULAR ≠ 0 then EntModeIrregular
  else EntModeOther

/-- One filesystem entry of the model.  `openOk` is the outcome of the
`os.Open` performed by `attemptOpen`/`isReadable`; `shaOpenOk`/`shaCopyOk`
(resp. `md5OpenOk`/`md5CopyOk`) are the outcomes of the open and of the
`io.Copy` stream performed by `getSHA256` (resp. `getMD5`); `sha256`/`md5`
are the digest bytes the successful stream would produce. -/
structure FSEntry where
  mode : Nat
  size : Int := 0
  modTime : Int := 0
  linkTarget : Option String := none
  openOk : Bool := true
  shaOpenOk : Bool := true
  shaCopyOk : Bool := true
  md5OpenOk : Bool := true
  md5CopyOk : Bool := true
  sha256 : List Nat := []
  md5 : List Nat := []
deriving DecidableEq, Repr

/-- The filesystem: a finite map from paths to entries. -/
abbrev FS := List (String × FSEntry)

/-- Path lookup in the model filesystem. -/
def lookupFS : FS → String → Option FSEntry
  | [], _ => none
  | (q, e) :: rest, p => if q = p then some e else lookupFS rest p

/-- `attemptStat` (`os.Lstat`): the entry if the path exists, `none` (Go
`nil`) otherwise. -/
def attemptStat (fs : FS) (path : String) : Option FSEntry := lookupFS fs path

/-- `attemptOpen`: whether `os.Open` succeeds on the path. -/
def attemptOpen (fs : FS) (path : String) : Bool :=
  match lookupFS fs path with
  | none => false
  | some e => e.openOk

/-- `isReadable` (part_001 version): just `attemptOpen`. -/
def isReadable (fs : FS) (path : String) : Bool := attemptOpen fs path

/-- `isFile`: `attemptStat` succeeds and the entry is not a directory. -/
def isFile (fs : FS) (path : String) : Bool :=
  match lookupFS fs path with
  | none => false
  | some e => !(isDirMode e.mode)

/-- Lowercase hex digit. -/
def hexDigit (n : Nat) : Char :=
  if n < 10 then Char.ofNat (48 + n) else Char.ofNat (87 + n)

/-- Two lowercase hex digits of one byte, as produced by Go `%x`. -/
def hexByte (b : Nat) : String :=
  String.mk [hexDigit (b / 16 % 16), hexDigit (b % 16)]

/-- Go `fmt.Sprintf("%x", bs)` on a byte slice; the nil slice renders as the
empty string. -/
def hexStr (bs : List Nat) : String := String.join (bs.map hexByte)

/-- `getSHA256`: returns digest bytes, hex rendering, and an error flag.
If the open fails it returns `(nil, EMPTY, err)`.  If the open succeeds but
the `io.Copy` stream fails, `calcSHA256` returns `nil` and `getSHA256`
returns the nil digest with its (empty) hex rendering and a NIL error —
exactly the Go control flow. -/
def getSHA256 (fs : FS) (path : String) : List Nat × String × Bool :=
  match lookupFS fs path with
  | none => ([], EMPTY, true)
  | some e =>
    if e.shaOpenOk = false then ([], EMPTY, true)
    else if e.shaCopyOk = false then ([], hexStr [], false)
    else (e.sha256, hexStr e.sha256, false)

/-- `getMD5`: same structure as `getSHA256`. -/
def getMD5 (fs : FS) (path : String) : List Nat × String × Bool :=
  match lookupFS fs path with
  | none => ([], EMPTY, true)
  | some e =>
    if e.md5OpenOk = false then ([], EMPTY, true)
    else if e.md5CopyOk = false then ([], hexStr [], false)
    else (e.md5, hexStr e.md5, false)

/-- Model of `filepath.EvalSymlinks`: full resolution of the symlink chain,
returning the terminal non-symlink path, `none` on any evaluation error
(missing entry, unreadable link, or the platform's loop/depth protection,
modelled by the fuel running out). -/
def evalSymlinks (fs : FS) : Nat → String → Option String
  | 0, _ => none
  | fuel + 1, path =>
    match lookupFS fs path with
    | none => none
    | some e =>
      if isSymlinkMode e.mode then
        match e.linkTarget with
        | none => none
        | some t => evalSymlinks fs fuel t
      else some path

/-- `getsTarget` (part_001): `filepath.EvalSymlinks` plus a success flag; on
error Go returns the (empty) partial result of `EvalSymlinks` and `false`. -/
def getsTarget (fs : FS) (fuel : Nat) (path : String) : String × Bool :=
  match evalSymlinks fs fuel path with
  | none => (EMPTY, false)
  | some t => (t, true)

/-- `getsFinalTarget` (part_001): recursive final-target resolution given the
path and its already-known `fs.FileInfo` (the entry, `none` for Go `nil`). -/
def getsFinalTarget (fs : FS) : Nat → String → Option FSEntry → String × Bool
  | _, _, none => (EMPTY, false)
  | 0, _, some _ => (EMPTY, false)
  | fuel + 1, path, some info =>
    if isSymlinkMode info.mode then
      match evalSymlinks fs (fuel + 1) path with
      | none => (EMPTY, false)
      | some target => getsFinalTarget fs fuel target (lookupFS fs target)
    else if isDirMode info.mode then (EMPTY, false)
    else (path, true)

/-- `linkLeadsToDir` (part_001): does the path lead (possibly through
symlinks) into a directory. -/
def linkLeadsToDir (fs : FS) : Nat → String → Bool
  | 0, _ => false
  | fuel + 1, path =>
    match lookupFS fs path with
    | none => false
    | some e =>
      if isDirMode e.mode then true
      else if isSymlinkMode e.mode then
        match evalSymlinks fs (fuel + 1) path with
        | none => false
        | some t => linkLeadsToDir fs fuel t
      else false

/-- `getEntMode` (path variant): `os.Lstat`, then classify; on a failed stat
returns `EntModeErrored` and a `nil` info. -/
def getEntMode (fs : FS) (path : String) : EntMode × Option FSEntry :=
  match lookupFS fs path with
  | none => (EntModeErrored, none)
  | some i => (getEntModeWithInfo i.mode, some i)

/-- `filepath.Join` restricted to the clean absolute components used by the
model. -/
def joinPath (a b : String) : String :=
  if a = EMPTY then b else if b = EMPTY then a else a ++ "/" ++ b

/-- Split a character list at every separator occurrence (the separator-free
core of `strings.Split`). -/
def splitOnSlash : List Char → List (List Char)
  | [] => [[]]
  | c :: rest =>
    let parts := splitOnSlash rest
    if c = '/' then [] :: parts
    else
      match parts with
      | [] => [[c]]
      | p :: ps => (c :: p) :: ps

/-- `pathBaseSplit`: directory and base components of a path (empty path
yields empty components).  Modelled for clean absolute paths: split at the
last separator. -/
def pathBaseSplit (path : String) : String × String :=
  if path = EMPTY then (EMPTY, EMPTY)
  else
    let parts := (splitOnSlash path.data).map String.mk
    let dir := String.intercalate "/" parts.dropLast
    (if dir = EMPTY then "/" else dir, parts.getLastD EMPTY)

/-- The `Sets` field-selection struct; every flag's Go zero value is
`false`. -/
structure Sets where
  Size : Bool := false
  Modes : Bool := false
  ChecksumMD5 : Bool := false
  ChecksumSHA256 : Bool := false
  LinkTarget : Bool := false
  LinkTargetFinal : Bool := false
deriving DecidableEq, Repr

/-- `SetsNone()`: the zero `Sets`. -/
def SetsNone : Sets := {}

/-- `SetsAll()`: every flag enabled. -/
def SetsAll : Sets :=
  { Size := true, Modes := true, ChecksumMD5 := true, ChecksumSHA256 := true,
    LinkTarget := true, LinkTargetFinal := true }

/-- The `FileObj` record, fields in source order, each initialised to its Go
zero value (the zero `time.Time` is modelled as `0`, the nil `fs.FileInfo`
as `none`, the zero `EntMode` string as `EMPTY`).  The `Set` pointer is
modelled by value: none of the verified claims depends on selection
aliasing. -/
structure FileObj where
  UpdatedAt : Int := 0
  modTime : Int := 0
  Filename : String := EMPTY
  Root : String := EMPTY
  SizeBytes : Int := 0
  ChecksumMD5 : String := EMPTY
  MD5 : List Nat := []
  ChecksumSHA256 : String := EMPTY
  SHA256 : List Nat := []
  Mode : EntMode := EMPTY
  info : Option FSEntry := none
  Target : String := EMPTY
  TargetFinal : String := EMPTY
  IsLink : Bool := false
  IsReadable : Bool := false
  IsExists : Bool := false
  Set : Sets := {}
deriving DecidableEq, Repr

/-- The `Action` enumeration accepted by `Force`. -/
inductive Action where
  | F_CHECKSUM_MD5
  | F_CHECKSUM_SHA256
  | F_MODES
  | F_SIZE
  | F_LINKTARGET
deriving DecidableEq, Repr

/-- `FileObj.FullPath()`: `filepath.Join(fo.Root, fo.Filename)`. -/
def fullPath (fo : FileObj) : String := joinPath fo.Root fo.Filename

/-- `FileObj.hasPaths()`. -/
def hasPaths (fo : FileObj) : Bool :=
  if fo.Filename = EMPTY ∨ fo.Root = EMPTY then false else true

/-- `FileObj.setPrelims()`: stat the path into `info` (clearing the flags if
the stat fails), then set both flags if the open-for-read probe succeeds;
returns the updated record and `IsExists && IsReadable`. -/
def setPrelims (fs : FS) (fo : FileObj) : FileObj × Bool :=
  if hasPaths fo then
    let st := attemptStat fs (fullPath fo)
    let fo1 : FileObj := { fo with info := st }
    let fo2 : FileObj :=
      if st.isNone then { fo1 with IsExists := false, IsReadable := false } else fo1
    let fo3 : FileObj :=
      if isReadable fs (fullPath fo) then { fo2 with IsExists := true, IsReadable := true }
      else fo2
    (fo3, fo3.IsExists && fo3.IsReadable)
  else
    ({ fo with IsExists := false, IsReadable := false }, false)

/-- `FileObj.setEntMode()`: when the record is marked existing and readable
and the `Modes` flag is set, classify the cached `info` and cache its
modification time; mark the record as a link when the classification is
`EntModeLink`.  (The Go code dereferences `fo.info` here; a `nil` info with
both flags set cannot arise from `setPrelims` in this model, and the `none`
branch below is never relied upon by the theorems.) -/
def setEntMode (fo : FileObj) : FileObj :=
  if fo.IsExists && fo.IsReadable then
    let fo1 : FileObj :=
      if fo.Set.Modes then
        match fo.info with
        | some i => { fo with Mode := getEntModeWithInfo i.mode, modTime := i.modTime }
        | none => fo
      else fo
    if fo1.Set.Modes && (fo1.Mode == EntModeLink) then { fo1 with IsLink := true } else fo1
  else fo

/-- `FileObj.setReadable()`. -/
def setReadable (fs : FS) (fo : FileObj) : FileObj × Bool :=
  let r := isReadable fs (fullPath fo)
  ({ fo with IsReadable := r }, r)

/-- `FileObj.setSize()`: when the `Size` flag is set, re-stat if the cached
info is nil; a still-nil info defines the size as `0`. -/
def setSize (fs : FS) (fo : FileObj) : FileObj :=
  if fo.Set.Size then
    let fo1 : FileObj :=
      if fo.info.isNone then { fo with info := attemptStat fs (fullPath fo) } else fo
    match fo1.info with
    | none => { fo1 with SizeBytes := 0 }
    | some i => { fo1 with SizeBytes := i.size }
  else fo

/-- `FileObj.setTargets()`: runs only when the record is existing, readable
and already marked as a link; when a target flag is set without the `Modes`
flag it re-classifies privately (writing `Mode` and `info`); then resolves
each target its flag asks for, storing the (possibly empty) result. -/
def setTargets (fs : FS) (fuel : Nat) (fo : FileObj) : FileObj :=
  if fo.IsExists && fo.IsReadable && fo.IsLink then
    let fo1 : FileObj :=
      if (fo.Set.LinkTarget || fo.Set.LinkTargetFinal) && !fo.Set.Modes then
        let r := getEntMode fs (fullPath fo)
        { fo with Mode := r.1, info := r.2 }
      else fo
    let fo2 : FileObj :=
      if fo1.Set.LinkTarget then
        { fo1 with Target := (getsTarget fs fuel (fullPath fo1)).1 }
      else fo1
    if fo2.Set.LinkTargetFinal then
      { fo2 with TargetFinal := (getsFinalTarget fs fuel (fullPath fo2) fo2.info).1 }
    else fo2
  else fo

/-- `FileObj.setChecksums()`: for each enabled digest flag in order (SHA-256
first), store the digest bytes and hex rendering; a non-nil error from the
digest helper returns immediately, skipping the rest. -/
def setChecksums (fs : FS) (fo : FileObj) : FileObj × Bool :=
  if fo.IsExists && fo.IsReadable then
    if fo.Set.ChecksumSHA256 then
      let r := getSHA256 fs (fullPath fo)
      let fo1 : FileObj := { fo with SHA256 := r.1, ChecksumSHA256 := r.2.1 }
      if r.2.2 then (fo1, true)
      else if fo1.Set.ChecksumMD5 then
        let r2 := getMD5 fs (fullPath fo1)
        ({ fo1 with MD5 := r2.1, ChecksumMD5 := r2.2.1 }, r2.2.2)
      else (fo1, false)
    else if fo.Set.ChecksumMD5 then
      let r2 := getMD5 fs (fullPath fo)
      ({ fo with MD5 := r2.1, ChecksumMD5 := r2.2.1 }, r2.2.2)
    else (fo, false)
  else (fo, false)

/-- `FileObj.timestamp()`: record the current time in `UpdatedAt`. -/
def timestamp (now : Int) (fo : FileObj) : FileObj := { fo with UpdatedAt := now }

/-- `FileObj.update()`: the population pass.  If the preliminary check
passes, run the mode, size, target and checksum steps and record the
timestamp; otherwise return with only the preliminary fields touched. -/
def update (fs : FS) (fuel : Nat) (now : Int) (fo : FileObj) : FileObj :=
  let pr := setPrelims fs fo
  if pr.2 then
    timestamp now (setChecksums fs (setTargets fs fuel (setSize fs (setEntMode pr.1)))).1
  else pr.1

/-- The record literal built by `newFileObj` before its population pass. -/
def freshFileObj (path : String) (s : Sets) : FileObj :=
  { Filename := (pathBaseSplit path).2, Root := (pathBaseSplit path).1, Set := s }

/-- `newFileObj`: `nil` for the empty path, otherwise the fresh record after
one population pass. -/
def newFileObj (fs : FS) (fuel : Nat) (now : Int) (path : String) (s : Sets) :
    Option FileObj :=
  if path = EMPTY then none else some (update fs fuel now (freshFileObj path s))

/-- `FileObj.ChangeSets`. -/
def ChangeSets (s : Sets) (fo : FileObj) : FileObj := { fo with Set := s }

/-- `FileObj.Force`: substitute the single-flag selection for the requested
action, run the matching step, then restore the original selection. -/
def Force (fs : FS) (fuel : Nat) (a : Action) (fo : FileObj) : FileObj :=
  let originalSets := fo.Set
  let fo2 : FileObj :=
    match a with
    | .F_CHECKSUM_MD5 => (setChecksums fs (ChangeSets { ChecksumMD5 := true } fo)).1
    | .F_CHECKSUM_SHA256 => (setChecksums fs (ChangeSets { ChecksumSHA256 := true } fo)).1
    | .F_MODES => setEntMode (ChangeSets { Modes := true } fo)
    | .F_SIZE => setSize fs (ChangeSets { Size := true } fo)
    | .F_LINKTARGET => setTargets fs fuel (ChangeSets { LinkTarget := true } fo)
  { fo2 with Set := originalSets }

/-- `FileObj.HasChanged()`: requires the record's cached existence and
readability flags, stats the path now, and compares the current modification
time (strictly) against the cached one. -/
def HasChanged (fs : FS) (fo : FileObj) : Bool :=
  if fo.IsExists && fo.IsReadable then
    match attemptStat fs (fullPath fo) with
    | none => false
    | some i => decide (fo.modTime < i.modTime)
  else false

/-- `FileObj.Update()`: re-run the population pass only when `HasChanged`. -/
def Update (fs : FS) (fuel : Nat) (now : Int) (fo : FileObj) : FileObj :=
  if HasChanged fs fo then update fs fuel now fo else fo

/-- One `os.DirEntry` as seen by `os.ReadDir`: its base name and its raw mode
bits (`IsDir()` and `Type()` are derived from the bits). -/
structure DirEnt where
  name : String
  mode : Nat
deriving DecidableEq, Repr

/-- The directory table backing `os.ReadDir`: path of a listable directory to
its entries; `none` models a `ReadDir` error. -/
abbrev DirTable := List (String × List DirEnt)

/-- `os.ReadDir` in the model. -/
def readDir : DirTable → String → Option (List DirEnt)
  | [], _ => none
  | (q, ds) :: rest, p => if q = p then some ds else readDir rest p

/-- The `worker` struct (part_000 era, with `singleFileMode`). -/
structure Worker where
  RootPath : String
  singleFileMode : Bool
  setter : Sets
deriving DecidableEq, Repr

/-- `worker.validate` (type_worker.go, part_000 variant): non-empty root; in
single-file mode the root must be a non-directory file. -/
def validate (fs : FS) (w : Worker) : Bool :=
  if w.RootPath = EMPTY then false
  else if w.singleFileMode then isFile fs w.RootPath
  else true

/-- `worker.hasEntries`: the root directory lists successfully, is non-empty,
and at least one listed entry is not a directory. -/
def hasEntries (dirs : DirTable) (w : Worker) : Bool :=
  match readDir dirs w.RootPath with
  | none => false
  | some dirents =>
    if dirents.length = 0 then false
    else dirents.any (fun ent => !(isDirMode ent.mode))

/-- `run` (part_000): validation, the entries check (skipped in single-file
mode), then either the single record or the per-entry loop that skips
directories and symlinks leading into directories.  The result list holds
`Option FileObj` because Go appends possibly-nil `*FileObj` pointers; the
`ReadDir`-failure message stands for the propagated OS error. -/
def run (fs : FS) (dirs : DirTable) (fuel : Nat) (now : Int) (w : Worker) :
    Except String (List (Option FileObj)) :=
  if validate fs w = false then
    Except.error ("StartingPath is not correct: " ++ w.RootPath)
  else if w.singleFileMode = false ∧ hasEntries dirs w = false then
    Except.error ("StartingPath has no non-directory entries: " ++ w.RootPath)
  else if w.singleFileMode then
    Except.ok [newFileObj fs fuel now w.RootPath w.setter]
  else
    match readDir dirs w.RootPath with
    | none => Except.error ("ReadDir failed: " ++ w.RootPath)
    | some dirents =>
      Except.ok (dirents.foldl
        (fun files ent =>
          let path := joinPath w.RootPath ent.name
          if isDirMode ent.mode then files
          else if isSymlinkMode ent.mode && linkLeadsToDir fs fuel path then files
          else files ++ [newFileObj fs fuel now path w.setter])
        [])

/-- The unit characters `"KMGTPE"` indexed by the loop exponent of
`sizeString`. -/
def sizeUnits : List Char := ['K', 'M', 'G', 'T', 'P', 'E']

/-- The `for n := bytes/unit; n >= unit; n /= unit { div *= unit; exp++ }`
loop of `sizeString`, returning the final `div` and `exp`. -/
def sizeLoop (div : Nat) (exp : Nat) (n : Nat) : Nat × Nat :=
  if h : 1024 ≤ n then sizeLoop (div * 1024) (exp + 1) (n / 1024) else (div, exp)
termination_by n
decreasing_by exact Nat.div_lt_self (by omega) (by omega)

/-- Fixed-point stand-in for the Go `%.2f` float rendering of
`bytes / div` (the verified claim concerns only totality and the unit
index, not the printed digits). -/
def formatFixed2 (bytes : Nat) (div : Nat) : String :=
  let h := bytes * 100 / div
  toString (h / 100) ++ "." ++ (if h % 100 < 10 then "0" else "") ++ toString (h % 100)

/-- `sizeString` (part_001): byte counts below 1024 render as `"<n> B"`;
otherwise the loop computes the binary-multiple divisor and exponent and the
result carries the `"KMGTPE"[exp]`-iB suffix. -/
def sizeString (bytes : Int) : String :=
  if bytes < 1024 then toString bytes ++ " B"
  else
    let r := sizeLoop 1024 0 (bytes.toNat / 1024)
    formatFixed2 bytes.toNat r.1 ++ " " ++ String.mk [sizeUnits.getD r.2 ' '] ++ "iB"

/-- The classification rules in the order the specification states them
(directory first, then no-type-bits as regular, then symlink, temporary,
named pipe, socket, device, irregular); written from the spec's words, to be
compared against `getEntModeWithInfo`. -/
def orderedRules : List ((Nat → Bool) × EntMode) :=
  [ (fun m => decide (m &&& MODE_DIR ≠ 0), EntModeDir),
    (fun m => decide (m &&& MODE_TYPE = 0), EntModeRegular),
    (fun m => decide (m &&& MODE_SYMLINK ≠ 0), EntModeLink),
    (fun m => decide (m &&& MODE_TEMPORARY ≠ 0), EntModeTemp),
    (fun m => decide (m &&& MODE_NAMED_PIPE ≠ 0), EntModePipe),
    (fun m => decide (m &&& MODE_SOCKET ≠ 0), EntModeSocket),
    (fun m => decide (m &&& MODE_DEVICE ≠ 0), EntModeDevice),
    (fun m => decide (m &&& MODE_IRREGULAR ≠ 0), EntModeIrregular) ]

/-- Spec-worded classifier: the tag of the first matching rule in the fixed
order, `EntModeOther` when nothing matches. -/
def classifyOrderedSpec (m : Nat) : EntMode :=
  match orderedRules.find? (fun r => r.1 m) with
  | some r => r.2
  | none => EntModeOther

/-- The closed set of tags the classifier may produce. -/
def entModeClosedSet : List EntMode :=
  [EntModeDir, EntModeRegular, EntModeLink, EntModeTemp, EntModePipe,
   EntModeSocket, EntModeDevice, EntModeIrregular, EntModeOther]

/-- `y` agrees with `x` on every `FileObj` field except the MD5 digest pair. -/
def unchangedButMD5Digest (x y : FileObj) : Prop :=
  y.UpdatedAt = x.UpdatedAt ∧ y.modTime = x.modTime ∧ y.Filename = x.Filename ∧
  y.Root = x.Root ∧ y.SizeBytes = x.SizeBytes ∧ y.ChecksumSHA256 = x.ChecksumSHA256 ∧
  y.SHA256 = x.SHA256 ∧ y.Mode = x.Mode ∧ y.info = x.info ∧ y.Target = x.Target ∧
  y.TargetFinal = x.TargetFinal ∧ y.IsLink = x.IsLink ∧ y.IsReadable = x.IsReadable ∧
  y.IsExists = x.IsExists ∧ y.Set = x.Set

/-- `y` agrees with `x` on every field except the SHA-256 digest pair. -/
def unchangedButSHA256Digest (x y : FileObj) : Prop :=
  y.UpdatedAt = x.UpdatedAt ∧ y.modTime = x.modTime ∧ y.Filename = x.Filename ∧
  y.Root = x.Root ∧ y.SizeBytes = x.SizeBytes ∧ y.ChecksumMD5 = x.ChecksumMD5 ∧
  y.MD5 = x.MD5 ∧ y.Mode = x.Mode ∧ y.info = x.info ∧ y.Target = x.Target ∧
  y.TargetFinal = x.TargetFinal ∧ y.IsLink = x.IsLink ∧ y.IsReadable = x.IsReadable ∧
  y.IsExists = x.IsExists ∧ y.Set = x.Set

/-- `y` agrees with `x` on every field except `Mode`, the cached modification
time, and the link flag (the fields the mode step owns). -/
def unchangedButModeFields (x y : FileObj) : Prop :=
  y.UpdatedAt = x.UpdatedAt ∧ y.Filename = x.Filename ∧ y.Root = x.Root ∧
  y.SizeBytes = x.SizeBytes ∧ y.ChecksumMD5 = x.ChecksumMD5 ∧ y.MD5 = x.MD5 ∧
  y.ChecksumSHA256 = x.ChecksumSHA256 ∧ y.SHA256 = x.SHA256 ∧ y.info = x.info ∧
  y.Target = x.Target ∧ y.TargetFinal = x.TargetFinal ∧ y.IsReadable = x.IsReadable ∧
  y.IsExists = x.IsExists ∧ y.Set = x.Set

/-- `y` agrees with `x` on every field except `SizeBytes` and the cached stat
info. -/
def unchangedButSizeFields (x y : FileObj) : Prop :=
  y.UpdatedAt = x.UpdatedAt ∧ y.modTime = x.modTime ∧ y.Filename = x.Filename ∧
  y.Root = x.Root ∧ y.ChecksumMD5 = x.ChecksumMD5 ∧ y.MD5 = x.MD5 ∧
  y.ChecksumSHA256 = x.ChecksumSHA256 ∧ y.SHA256 = x.SHA256 ∧ y.Mode = x.Mode ∧
  y.Target = x.Target ∧ y.TargetFinal = x.TargetFinal ∧ y.IsLink = x.IsLink ∧
  y.IsReadable = x.IsReadable ∧ y.IsExists = x.IsExists ∧ y.Set = x.Set

/-- `y` agrees with `x` on every field except `Target`, `Mode` and the cached
stat info (the fields the forced immediate-target step may write). -/
def unchangedButTargetFields (x y : FileObj) : Prop :=
  y.UpdatedAt = x.UpdatedAt ∧ y.modTime = x.modTime ∧ y.Filename = x.Filename ∧
  y.Root = x.Root ∧ y.SizeBytes = x.SizeBytes ∧ y.ChecksumMD5 = x.ChecksumMD5 ∧
  y.MD5 = x.MD5 ∧ y.ChecksumSHA256 = x.ChecksumSHA256 ∧ y.SHA256 = x.SHA256 ∧
  y.TargetFinal = x.TargetFinal ∧ y.IsLink = x.IsLink ∧ y.IsReadable = x.IsReadable ∧
  y.IsExists = x.IsExists ∧ y.Set = x.Set

/-- A plain readable regular file with modification time 5, for the
`HasChanged` counterexample. -/
def entC1 : FSEntry := { mode := 0, size := 3, modTime := 5 }

/-- Filesystem holding only `/a/f`. -/
def fsC1 : FS := [("/a/f", entC1)]

/-- Record built by the constructor over `fsC1` with the empty selection, so
the mode flag was never enabled and no modification time was ever captured. -/
def foC1 : FileObj := update fsC1 9 7 (freshFileObj "/a/f" SetsNone)

/-- A readable symlink entry pointing at `/a/f`. -/
def entC2link : FSEntry := { mode := MODE_SYMLINK, modTime := 1, linkTarget := some "/a/f" }

/-- A readable regular entry. -/
def entC2file : FSEntry := { mode := 0, size := 3, modTime := 1 }

/-- Filesystem with the symlink `/a/lnk -> /a/f`. -/
def fsC2 : FS := [("/a/lnk", entC2link), ("/a/f", entC2file)]

/-- Selection with both target flags set but the mode flag unset. -/
def sC2 : Sets := { LinkTarget := true, LinkTargetFinal := true }

/-- Record built by the constructor for the symlink under `sC2`. -/
def foC2 : FileObj := update fsC2 9 7 (freshFileObj "/a/lnk" sC2)

/-- Cached stat info of a symlink, for the `Force` counterexample. -/
def entC3 : FSEntry := { mode := MODE_SYMLINK, modTime := 1, linkTarget := some "/a/f" }

/-- A record previously populated with the mode flag on for a symlink that
has since been deleted from the filesystem. -/
def foC3 : FileObj :=
  { Filename := "lnk", Root := "/a", Mode := EntModeLink, info := some entC3,
    IsLink := true, IsExists := true, IsReadable := true,
    Set := { Modes := true, LinkTarget := true } }

/-- Filesystem in which `/a/lnk` no longer exists. -/
def fsC3 : FS := []

/-- Chain head: `/a -> /b`. -/
def entC4a : FSEntry := { mode := MODE_SYMLINK, linkTarget := some "/b" }

/-- Chain middle: `/b -> /c`. -/
def entC4b : FSEntry := { mode := MODE_SYMLINK, linkTarget := some "/c" }

/-- Chain tail: `/c`, a regular file. -/
def entC4c : FSEntry := { mode := 0, size := 1, modTime := 1 }

/-- The symlink chain `a -> b -> c` with `c` a regular file. -/
def fsC4 : FS := [("/a", entC4a), ("/b", entC4b), ("/c", entC4c)]

/-- Entry whose SHA-256 open fails while its MD5 computation would succeed
(readability probe itself succeeds). -/
def entC6 : FSEntry :=
  { mode := 0, size := 4, modTime := 1, shaOpenOk := false, md5 := [7], sha256 := [5] }

/-- Filesystem for the digest counterexample. -/
def fsC6 : FS := [("/a/f", entC6)]

/-- Selection with both digest flags set. -/
def sC6 : Sets := { ChecksumMD5 := true, ChecksumSHA256 := true }

/-- Record built by a population pass over `fsC6` with both digest flags. -/
def foC6 : FileObj := update fsC6 9 7 (freshFileObj "/a/f" sC6)

/-- Entry whose SHA-256 stream fails mid-copy while everything else works,
for the amended digest-independence witness. -/
def entW6 : FSEntry :=
  { mode := 0, size := 4, modTime := 1, shaCopyOk := false, md5 := [7], sha256 := [5] }

/-- Filesystem for the digest witness. -/
def fsW6 : FS := [("/w/f", entW6)]

/-- Record positioned on `/w/f` with both digest flags and the preliminary
flags already established. -/
def foW6 : FileObj :=
  { Filename := "f", Root := "/w", IsExists := true, IsReadable := true, Set := sC6 }

/-- A symlink `/a -> /d` for the final-target-into-directory witness. -/
def entW7a : FSEntry := { mode := MODE_SYMLINK, linkTarget := some "/d" }

/-- A directory `/d`. -/
def entW7d : FSEntry := { mode := MODE_DIR }

/-- Filesystem with a symlink pointing at a directory. -/
def fsW7 : FS := [("/a", entW7a), ("/d", entW7d)]

/-- Root directory listing holding exactly one entry: a symlink. -/
def dirsC9 : DirTable := [("/r", [{ name := "lnk", mode := MODE_SYMLINK }])]

/-- Filesystem in which that symlink leads into a directory. -/
def fsC9 : FS :=
  [("/r/lnk", { mode := MODE_SYMLINK, linkTarget := some "/d" }), ("/d", { mode := MODE_DIR })]

/-- Path-mode worker rooted at `/r`. -/
def wC9 : Worker := { RootPath := "/r", singleFileMode := false, setter := {} }

/-- Root directory listing holding only a sub-directory, for the amended
enumeration-error witness. -/
def dirsW9 : DirTable := [("/r", [{ name := "sub", mode := MODE_DIR }])]

/-- One unfolding step of `evalSymlinks` at positive fuel. -/
theorem evalSymlinks_succ (fs : FS) (n : Nat) (p : String) :
    evalSymlinks fs (n + 1) p =
      match lookupFS fs p with
      | none => none
      | some e =>
        if isSymlinkMode e.mode then
          match e.linkTarget with
          | none => none
          | some t => evalSymlinks fs n t
        else some p := rfl

/-- One unfolding step of `getsFinalTarget` at positive fuel and non-nil
info. -/
theorem getsFinalTarget_succ (fs : FS) (n : Nat) (p : String) (info : FSEntry) :
    getsFinalTarget fs (n + 1) p (some info) =
      if isSymlinkMode info.mode then
        match evalSymlinks fs (n + 1) p with
        | none => (EMPTY, false)
        | some target => getsFinalTarget fs n target (lookupFS fs target)
      else if isDirMode info.mode then (EMPTY, false)
      else (p, true) := rfl

/-- A successful `evalSymlinks` result names an existing non-symlink entry. -/
theorem evalSymlinks_terminal (fs : FS) :
    ∀ fuel path q, evalSymlinks fs fuel path = some q →
      ∃ e, lookupFS fs q = some e ∧ isSymlinkMode e.mode = false := by
  intro fuel
  induction fuel with
  | zero => intro path q h; simp [evalSymlinks] at h
  | succ n ih =>
    intro path q h
    rw [evalSymlinks_succ] at h
    cases hl : lookupFS fs path <;> rw [hl] at h <;> dsimp only at h
    · exact absurd h (by simp)
    case some e =>
      by_cases hs : isSymlinkMode e.mode
      · rw [if_pos hs] at h
        cases ht : e.linkTarget <;> rw [ht] at h <;> dsimp only at h
        · exact absurd h (by simp)
        · exact ih _ _ h
      · rw [if_neg hs] at h
        obtain rfl : path = q := by simpa using h
        exact ⟨e, hl, by simpa using hs⟩

/-- `setPrelims` writes only `info` and the two preliminary flags. -/
theorem setPrelims_keeps (fs : FS) (fo : FileObj) :
    (setPrelims fs fo).1.Filename = fo.Filename ∧ (setPrelims fs fo).1.Root = fo.Root ∧
    (setPrelims fs fo).1.UpdatedAt = fo.UpdatedAt ∧
    (setPrelims fs fo).1.modTime = fo.modTime ∧
    (setPrelims fs fo).1.SizeBytes = fo.SizeBytes ∧ (setPrelims fs fo).1.MD5 = fo.MD5 ∧
    (setPrelims fs fo).1.ChecksumMD5 = fo.ChecksumMD5 ∧
    (setPrelims fs fo).1.SHA256 = fo.SHA256 ∧
    (setPrelims fs fo).1.ChecksumSHA256 = fo.ChecksumSHA256 ∧
    (setPrelims fs fo).1.Mode = fo.Mode ∧ (setPrelims fs fo).1.Target = fo.Target ∧
    (setPrelims fs fo).1.TargetFinal = fo.TargetFinal ∧
    (setPrelims fs fo).1.IsLink = fo.IsLink ∧ (setPrelims fs fo).1.Set = fo.Set := by
  simp only [setPrelims]
  repeat' split
  all_goals simp

/-- `setEntMode` is the identity when the `Modes` flag is unset. -/
theorem setEntMode_of_not_modes (fo : FileObj) (h : fo.Set.Modes = false) :
    setEntMode fo = fo := by
  simp only [setEntMode, h]
  repeat' split
  all_goals simp_all

/-- `setEntMode` writes only `Mode`, the cached modification time and the
link flag. -/
theorem setEntMode_keeps (fo : FileObj) :
    (setEntMode fo).UpdatedAt = fo.UpdatedAt ∧ (setEntMode fo).Filename = fo.Filename ∧
    (setEntMode fo).Root = fo.Root ∧ (setEntMode fo).SizeBytes = fo.SizeBytes ∧
    (setEntMode fo).MD5 = fo.MD5 ∧ (setEntMode fo).ChecksumMD5 = fo.ChecksumMD5 ∧
    (setEntMode fo).SHA256 = fo.SHA256 ∧
    (setEntMode fo).ChecksumSHA256 = fo.ChecksumSHA256 ∧
    (setEntMode fo).info = fo.info ∧ (setEntMode fo).Target = fo.Target ∧
    (setEntMode fo).TargetFinal = fo.TargetFinal ∧
    (setEntMode fo).IsExists = fo.IsExists ∧
    (setEntMode fo).IsReadable = fo.IsReadable ∧ (setEntMode fo).Set = fo.Set := by
  simp only [setEntMode]
  repeat' split
  all_goals simp

/-- `setSize` writes only `SizeBytes` and the cached stat info. -/
theorem setSize_keeps (fs : FS) (fo : FileObj) :
    (setSize fs fo).UpdatedAt = fo.UpdatedAt ∧ (setSize fs fo).modTime = fo.modTime ∧
    (setSize fs fo).Filename = fo.Filename ∧ (setSize fs fo).Root = fo.Root ∧
    (setSize fs fo).MD5 = fo.MD5 ∧ (setSize fs fo).ChecksumMD5 = fo.ChecksumMD5 ∧
    (setSize fs fo).SHA256 = fo.SHA256 ∧
    (setSize fs fo).ChecksumSHA256 = fo.ChecksumSHA256 ∧
    (setSize fs fo).Mode = fo.Mode ∧ (setSize fs fo).Target = fo.Target ∧
    (setSize fs fo).TargetFinal = fo.TargetFinal ∧
    (setSize fs fo).IsLink = fo.IsLink ∧ (setSize fs fo).IsExists = fo.IsExists ∧
    (setSize fs fo).IsReadable = fo.IsReadable ∧ (setSize fs fo).Set = fo.Set := by
  simp only [setSize]
  repeat' split
  all_goals simp

/-- `setTargets` is the identity when the record is not marked as a link. -/
theorem setTargets_of_not_link (fs : FS) (fuel : Nat) (fo : FileObj)
    (h : fo.IsLink = false) : setTargets fs fuel fo = fo := by
  simp [setTargets, h]

/-- `setTargets` writes only `Mode`, the cached stat info and the two target
strings. -/
theorem setTargets_keeps (fs : FS) (fuel : Nat) (fo : FileObj) :
    (setTargets fs fuel fo).UpdatedAt = fo.UpdatedAt ∧
    (setTargets fs fuel fo).modTime = fo.modTime ∧
    (setTargets fs fuel fo).Filename = fo.Filename ∧
    (setTargets fs fuel fo).Root = fo.Root ∧
    (setTargets fs fuel fo).SizeBytes = fo.SizeBytes ∧
    (setTargets fs fuel fo).MD5 = fo.MD5 ∧
    (setTargets fs fuel fo).ChecksumMD5 = fo.ChecksumMD5 ∧
    (setTargets fs fuel fo).SHA256 = fo.SHA256 ∧
    (setTargets fs fuel fo).ChecksumSHA256 = fo.ChecksumSHA256 ∧
    (setTargets fs fuel fo).IsLink = fo.IsLink ∧
    (setTargets fs fuel fo).IsExists = fo.IsExists ∧
    (setTargets fs fuel fo).IsReadable = fo.IsReadable ∧
    (setTargets fs fuel fo).Set = fo.Set := by
  simp only [setTargets]
  repeat' split
  all_goals simp

/-- `setTargets` leaves the final target alone when its flag is unset. -/
theorem setTargets_TargetFinal_of_not (fs : FS) (fuel : Nat) (fo : FileObj)
    (h : fo.Set.LinkTargetFinal = false) :
    (setTargets fs fuel fo).TargetFinal = fo.TargetFinal := by
  simp only [setTargets]
  repeat' split
  all_goals simp_all

/-- `setChecksums` writes only the four digest fields. -/
theorem setChecksums_keeps (fs : FS) (fo : FileObj) :
    (setChecksums fs fo).1.UpdatedAt = fo.UpdatedAt ∧
    (setChecksums fs fo).1.modTime = fo.modTime ∧
    (setChecksums fs fo).1.Filename = fo.Filename ∧
    (setChecksums fs fo).1.Root = fo.Root ∧
    (setChecksums fs fo).1.SizeBytes = fo.SizeBytes ∧
    (setChecksums fs fo).1.Mode = fo.Mode ∧ (setChecksums fs fo).1.info = fo.info ∧
    (setChecksums fs fo).1.Target = fo.Target ∧
    (setChecksums fs fo).1.TargetFinal = fo.TargetFinal ∧
    (setChecksums fs fo).1.IsLink = fo.IsLink ∧
    (setChecksums fs fo).1.IsExists = fo.IsExists ∧
    (setChecksums fs fo).1.IsReadable = fo.IsReadable ∧
    (setChecksums fs fo).1.Set = fo.Set := by
  simp only [setChecksums]
  repeat' split
  all_goals simp

/-- `setChecksums` leaves the SHA-256 pair alone when its flag is unset. -/
theorem setChecksums_sha_of_not (fs : FS) (fo : FileObj)
    (h : fo.Set.ChecksumSHA256 = false) :
    (setChecksums fs fo).1.SHA256 = fo.SHA256 ∧
    (setChecksums fs fo).1.ChecksumSHA256 = fo.ChecksumSHA256 := by
  simp only [setChecksums, h]
  repeat' split
  all_goals simp_all

/-- `setChecksums` leaves the MD5 pair alone when its flag is unset. -/
theorem setChecksums_md5_of_not (fs : FS) (fo : FileObj)
    (h : fo.Set.ChecksumMD5 = false) :
    (setChecksums fs fo).1.MD5 = fo.MD5 ∧
    (setChecksums fs fo).1.ChecksumMD5 = fo.ChecksumMD5 := by
  simp only [setChecksums, h]
  repeat' split
  all_goals simp_all

/-- The `sizeString` loop performs at most `k` divisions when its argument is
below `1024 ^ (k + 1)`. -/
theorem sizeLoop_exp_le :
    ∀ (k d exp n : Nat), n < 1024 ^ (k + 1) → (sizeLoop d exp n).2 ≤ exp + k := by
  intro k
  induction k with
  | zero =>
    intro d exp n h
    rw [sizeLoop, dif_neg (by simpa using h)]
    simp
  | succ k ih =>
    intro d exp n h
    rw [sizeLoop]
    by_cases h1 : 1024 ≤ n
    · rw [dif_pos h1]
      have h2 : n / 1024 < 1024 ^ (k + 1) := by
        have hlt : n < 1024 ^ (k + 1) * 1024 := by
          calc n < 1024 ^ (k + 1 + 1) := h
          _ = 1024 ^ (k + 1) * 1024 := by ring
        omega
      have := ih (d * 1024) (exp + 1) (n / 1024) h2
      omega
    · rw [dif_neg h1]
      simp

/-- C8: for every raw file-mode value the classifier agrees with the
spec-worded first-match rule order (directory bit first; no type bits means
regular; then symlink, temporary, named pipe, socket, device, irregular;
otherwise "other") and returns exactly one tag of the closed set. -/
theorem entmode_classification_ordered (m : Nat) :
    getEntModeWithInfo m = classifyOrderedSpec m ∧
    getEntModeWithInfo m ∈ entModeClosedSet := by
  constructor
  · unfold getEntModeWithInfo classifyOrderedSpec orderedRules
    by_cases h1 : m &&& MODE_DIR = 0 <;>
    by_cases h2 : m &&& MODE_TYPE = 0 <;>
    by_cases h3 : m &&& MODE_SYMLINK = 0 <;>
    by_cases h4 : m &&& MODE_TEMPORARY = 0 <;>
    by_cases h5 : m &&& MODE_NAMED_PIPE = 0 <;>
    by_cases h6 : m &&& MODE_SOCKET = 0 <;>
    by_cases h7 : m &&& MODE_DEVICE = 0 <;>
    by_cases h8 : m &&& MODE_IRREGULAR = 0 <;>
    simp [List.find?, h1, h2, h3, h4, h5, h6, h7, h8]
  · simp only [getEntModeWithInfo, entModeClosedSet]
    repeat' split
    all_goals simp

/-- C10: for every `int64` byte count of at least 1024, the unit exponent
computed by the `sizeString` loop never exceeds 5, so the index into the
`"KMGTPE"` unit table is in bounds (and `sizeString` is total by
construction). -/
theorem sizeString_exp_bound (b : Int) (h1 : 1024 ≤ b)
    (h2 : b ≤ 9223372036854775807) :
    (sizeLoop 1024 0 (b.toNat / 1024)).2 ≤ 5 ∧
    (sizeLoop 1024 0 (b.toNat / 1024)).2 < sizeUnits.length := by
  have hb : b.toNat ≤ 9223372036854775807 := by
    have := Int.toNat_le_toNat h2
    simpa using this
  have hp : (1024 : Nat) ^ 6 = 1152921504606846976 := by norm_num
  have hn : b.toNat / 1024 < 1024 ^ (5 + 1) := by
    rw [show (5 : Nat) + 1 = 6 from rfl, hp]
    omega
  have hle := sizeLoop_exp_le 5 1024 0 (b.toNat / 1024) hn
  refine ⟨by omega, ?_⟩
  simp only [sizeUnits, List.length]
  omega

/-- C10 witness: the bound evaluated at one mebibyte. -/
theorem sizeString_exp_bound_witness :
    (sizeLoop 1024 0 ((1048576 : Int).toNat / 1024)).2 ≤ 5 ∧
    (sizeLoop 1024 0 ((1048576 : Int).toNat / 1024)).2 < sizeUnits.length :=
  sizeString_exp_bound 1048576 (by norm_num) (by norm_num)

/-- C1 (amended): `HasChanged` is true exactly when the record's cached
existence and readability flags are set, the current lstat succeeds, and the
current modification time is strictly after the cached one — which is the
zero time when the mode flag never captured it. -/
theorem hasChanged_characterization (fs : FS) (fo : FileObj) :
    HasChanged fs fo = true ↔
      fo.IsExists = true ∧ fo.IsReadable = true ∧
        ∃ i, attemptStat fs (fullPath fo) = some i ∧ fo.modTime < i.modTime := by
  unfold HasChanged
  cases hE : fo.IsExists <;> cases hR : fo.IsReadable <;> simp
  cases hl : attemptStat fs (fullPath fo) <;> simp

/-- C1 counterexample: a record constructed with the empty selection (mode
flag never enabled, so no modification time was ever captured) over an
existing readable file nevertheless reports `HasChanged() = true`, because
the comparison runs against the zero time — the claim says it must report
false. -/
theorem hasChanged_neverCaptured_cex :
    HasChanged fsC1 foC1 = true ∧ foC1.Set.Modes = false ∧ foC1.modTime = 0 ∧
    foC1.IsExists = true ∧ foC1.IsReadable = true := by decide

/-- C5 (amended): a population pass records "now" as the last-refreshed time
exactly when the preliminary existence/readability check passes; a
short-circuited pass leaves the timestamp untouched. -/
theorem update_timestamp_iff_prelims (fs : FS) (fuel : Nat) (now : Int)
    (fo : FileObj) :
    (update fs fuel now fo).UpdatedAt =
      if (setPrelims fs fo).2 = true then now else fo.UpdatedAt := by
  by_cases hok : (setPrelims fs fo).2 = true
  · simp [update, hok, timestamp]
  · obtain ⟨-, -, kU, -⟩ := setPrelims_keeps fs fo
    simp only [update]
    rw [if_neg (by simpa using hok), if_neg (by simpa using hok)]
    exact kU

/-- C5 counterexample: a pass whose preliminary check fails (missing file)
does not record the current time, contradicting the claim's
"unconditionally". -/
theorem update_timestamp_cex :
    (update ([] : FS) 9 7 (freshFileObj "/a/f" SetsNone)).UpdatedAt = 0 ∧
    (setPrelims ([] : FS) (freshFileObj "/a/f" SetsNone)).2 = false ∧
    (0 : Int) ≠ 7 := by decide

/-- C2 (amended): in a population pass over a fresh record whose selection
has the mode flag unset, the link flag is never set, so the target step never
runs and both targets stay undefined — even for an existing readable symlink
with a target flag set; the on-demand private classification inside the
target step is reachable only for records already marked as links by an
earlier pass. -/
theorem update_no_modes_no_targets (fs : FS) (fuel : Nat) (now : Int)
    (path : String) (s : Sets) (h : s.Modes = false) :
    (update fs fuel now (freshFileObj path s)).IsLink = false ∧
    (update fs fuel now (freshFileObj path s)).Target = EMPTY ∧
    (update fs fuel now (freshFileObj path s)).TargetFinal = EMPTY := by
  obtain ⟨-, -, -, -, -, -, -, -, -, -, kT, kTF, kL, kS⟩ :=
    setPrelims_keeps fs (freshFileObj path s)
  by_cases hok : (setPrelims fs (freshFileObj path s)).2 = true
  · have e2 : setEntMode (setPrelims fs (freshFileObj path s)).1 =
        (setPrelims fs (freshFileObj path s)).1 :=
      setEntMode_of_not_modes _ (by rw [kS]; exact h)
    obtain ⟨-, -, -, -, -, -, -, -, -, zT, zTF, zL, -, -, -⟩ :=
      setSize_keeps fs (setPrelims fs (freshFileObj path s)).1
    have e3 : setTargets fs fuel (setSize fs (setPrelims fs (freshFileObj path s)).1) =
        setSize fs (setPrelims fs (freshFileObj path s)).1 :=
      setTargets_of_not_link fs fuel _ (by rw [zL, kL]; rfl)
    obtain ⟨-, -, -, -, -, -, -, cT, cTF, cL, -, -, -⟩ :=
      setChecksums_keeps fs (setSize fs (setPrelims fs (freshFileObj path s)).1)
    simp only [update]
    rw [if_pos hok, e2, e3]
    simp only [timestamp]
    exact ⟨by rw [cL, zL, kL]; rfl, by rw [cT, zT, kT]; rfl, by rw [cTF, zTF, kTF]; rfl⟩
  · simp only [update]
    rw [if_neg hok]
    exact ⟨kL, kT, kTF⟩

/-- C2 amended witness: the symlink fixture under the target-only selection
resolves nothing. -/
theorem update_no_modes_no_targets_witness :
    (update fsC2 9 7 (freshFileObj "/a/lnk" sC2)).IsLink = false ∧
    (update fsC2 9 7 (freshFileObj "/a/lnk" sC2)).Target = EMPTY ∧
    (update fsC2 9 7 (freshFileObj "/a/lnk" sC2)).TargetFinal = EMPTY :=
  update_no_modes_no_targets fsC2 9 7 "/a/lnk" sC2 rfl

/-- C2 counterexample: `/a/lnk` is an existing readable symlink, the
selection has both target flags set and the mode flag unset, the target is
resolvable — yet the constructor's population pass leaves both targets
undefined and the link flag false. -/
theorem targets_without_modes_cex :
    foC2.Target = EMPTY ∧ foC2.TargetFinal = EMPTY ∧ foC2.IsLink = false ∧
    sC2.Modes = false ∧ sC2.LinkTarget = true ∧ sC2.LinkTargetFinal = true ∧
    lookupFS fsC2 "/a/lnk" = some entC2link ∧ isSymlinkMode entC2link.mode = true ∧
    entC2link.openOk = true ∧ evalSymlinks fsC2 9 "/a/lnk" = some "/a/f" := by decide

/-- C3 (amended): `Force` always restores the persisted field-selection and
touches only the fields its action owns — the digest actions their
bytes+hex pair, the mode action the mode/cached-time/link-flag triple, the
size action the size and the cached stat info — except that the immediate
target action, whose temporary selection has the mode flag unset, may also
rewrite `Mode` and the cached stat info through the target step's private
classification.  The hypothesis excludes records whose cached flags promise
a stat info that is absent (there the Go code would dereference nil). -/
theorem force_frame (fs : FS) (fuel : Nat) (fo : FileObj)
    (h : fo.IsExists = true → fo.IsReadable = true → fo.info.isSome = true) :
    unchangedButMD5Digest fo (Force fs fuel Action.F_CHECKSUM_MD5 fo) ∧
    unchangedButSHA256Digest fo (Force fs fuel Action.F_CHECKSUM_SHA256 fo) ∧
    unchangedButModeFields fo (Force fs fuel Action.F_MODES fo) ∧
    unchangedButSizeFields fo (Force fs fuel Action.F_SIZE fo) ∧
    unchangedButTargetFields fo (Force fs fuel Action.F_LINKTARGET fo) := by
  refine ⟨?_, ?_, ?_, ?_, ?_⟩
  · obtain ⟨kU, km, kF, kR, kS, kMo, ki, kT, kTF, kL, kE, kRd, -⟩ :=
      setChecksums_keeps fs (ChangeSets { ChecksumMD5 := true } fo)
    obtain ⟨s1, s2⟩ := setChecksums_sha_of_not fs (ChangeSets { ChecksumMD5 := true } fo) rfl
    exact ⟨kU, km, kF, kR, kS, s2, s1, kMo, ki, kT, kTF, kL, kRd, kE, rfl⟩
  · obtain ⟨kU, km, kF, kR, kS, kMo, ki, kT, kTF, kL, kE, kRd, -⟩ :=
      setChecksums_keeps fs (ChangeSets { ChecksumSHA256 := true } fo)
    obtain ⟨m1, m2⟩ := setChecksums_md5_of_not fs (ChangeSets { ChecksumSHA256 := true } fo) rfl
    exact ⟨kU, km, kF, kR, kS, m2, m1, kMo, ki, kT, kTF, kL, kRd, kE, rfl⟩
  · obtain ⟨kU, kF, kR, kS, kM, kCM, kSH, kCS, ki, kT, kTF, kE, kRd, -⟩ :=
      setEntMode_keeps (ChangeSets { Modes := true } fo)
    exact ⟨kU, kF, kR, kS, kCM, kM, kCS, kSH, ki, kT, kTF, kRd, kE, rfl⟩
  · obtain ⟨kU, km, kF, kR, kM, kCM, kSH, kCS, kMo, kT, kTF, kL, kE, kRd, -⟩ :=
      setSize_keeps fs (ChangeSets { Size := true } fo)
    exact ⟨kU, km, kF, kR, kCM, kM, kCS, kSH, kMo, kT, kTF, kL, kRd, kE, rfl⟩
  · obtain ⟨kU, km, kF, kR, kS, kM, kCM, kSH, kCS, kL, kE, kRd, -⟩ :=
      setTargets_keeps fs fuel (ChangeSets { LinkTarget := true } fo)
    have kTF := setTargets_TargetFinal_of_not fs fuel (ChangeSets { LinkTarget := true } fo) rfl
    exact ⟨kU, km, kF, kR, kS, kCM, kM, kCS, kSH, kTF, kL, kRd, kE, rfl⟩

/-- C3 amended witness: the frame instances at the default record over the
empty filesystem. -/
theorem force_frame_witness :
    unchangedButSizeFields ({} : FileObj) (Force ([] : FS) 9 Action.F_SIZE {}) ∧
    unchangedButTargetFields ({} : FileObj) (Force ([] : FS) 9 Action.F_LINKTARGET {}) :=
  ⟨(force_frame ([] : FS) 9 {} (by decide)).2.2.2.1,
   (force_frame ([] : FS) 9 {} (by decide)).2.2.2.2⟩

/-- C3 counterexample: on a record marked as a link whose file has since
disappeared, `Force(F_LINKTARGET)` rewrites the non-targeted public `Mode`
field (from "link" to the errored tag) through the private classification —
the claim says every other field keeps its previous value. -/
theorem force_linktarget_rewrites_mode_cex :
    (Force fsC3 9 Action.F_LINKTARGET foC3).Mode = EntModeErrored ∧
    foC3.Mode = EntModeLink ∧ EntModeErrored ≠ EntModeLink ∧
    (Force fsC3 9 Action.F_LINKTARGET foC3).Set = foC3.Set := by decide

/-- C4 (amended): immediate-target resolution performs a full chain
evaluation, not one level: on a chain `a -> b -> c` ending at a regular file
it returns `c` — the same path the final-target resolution returns — and it
also succeeds (with the path itself) on a plain non-symlink file instead of
failing. -/
theorem symlink_chain_resolution (fs : FS) (fuel : Nat) (a b c : String)
    (ea eb ec : FSEntry)
    (ha : lookupFS fs a = some ea) (hal : isSymlinkMode ea.mode = true)
    (hat : ea.linkTarget = some b)
    (hb : lookupFS fs b = some eb) (hbl : isSymlinkMode eb.mode = true)
    (hbt : eb.linkTarget = some c)
    (hc : lookupFS fs c = some ec) (hcl : isSymlinkMode ec.mode = false)
    (hcd : isDirMode ec.mode = false) :
    getsTarget fs (fuel + 3) a = (c, true) ∧
    getsFinalTarget fs (fuel + 3) a (some ea) = (c, true) ∧
    getsTarget fs (fuel + 3) c = (c, true) := by
  have e1 : evalSymlinks fs (fuel + 1) c = some c := by
    rw [evalSymlinks_succ, hc]
    simp [hcl]
  have e2 : evalSymlinks fs (fuel + 2) b = some c := by
    rw [show fuel + 2 = fuel + 1 + 1 by ring, evalSymlinks_succ, hb]
    simp [hbl, hbt, e1]
  have e3 : evalSymlinks fs (fuel + 3) a = some c := by
    rw [show fuel + 3 = fuel + 2 + 1 by ring, evalSymlinks_succ, ha]
    simp [hal, hat, e2]
  have e1c : evalSymlinks fs (fuel + 3) c = some c := by
    rw [show fuel + 3 = fuel + 2 + 1 by ring, evalSymlinks_succ, hc]
    simp [hcl]
  refine ⟨?_, ?_, ?_⟩
  · unfold getsTarget
    rw [e3]
  · rw [show fuel + 3 = fuel + 2 + 1 by ring, getsFinalTarget_succ]
    rw [if_pos hal]
    rw [show fuel + 2 + 1 = fuel + 3 by ring, e3]
    dsimp only
    rw [hc]
    rw [show fuel + 2 = fuel + 1 + 1 by ring, getsFinalTarget_succ]
    rw [if_neg (by simp [hcl]), if_neg (by simp [hcd])]
  · unfold getsTarget
    rw [e1c]

/-- C4 amended witness: the concrete chain `/a -> /b -> /c`. -/
theorem symlink_chain_resolution_witness :
    getsTarget fsC4 9 "/a" = ("/c", true) ∧
    getsFinalTarget fsC4 9 "/a" (some entC4a) = ("/c", true) ∧
    getsTarget fsC4 9 "/c" = ("/c", true) := by
  have h := symlink_chain_resolution fsC4 6 "/a" "/b" "/c" entC4a entC4b entC4c
    (by decide) (by decide) rfl (by decide) (by decide) rfl (by decide) (by decide)
    (by decide)
  simpa using h

/-- C4 counterexample: on the chain `a -> b -> c` the immediate-target
helper returns `c`, not the claimed one-hop target `b`, and it does not fail
on the non-symlink `/c`. -/
theorem getsTarget_full_resolution_cex :
    getsTarget fsC4 9 "/a" = ("/c", true) ∧ ("/c" : String) ≠ "/b" ∧
    lookupFS fsC4 "/c" = some entC4c ∧ isSymlinkMode entC4c.mode = false ∧
    getsTarget fsC4 9 "/c" = ("/c", true) := by decide

/-- C6 (amended): a mid-stream read failure while computing the SHA-256
digest (open succeeded, copy failed) leaves only that digest undefined: the
MD5 digest is still computed and stored and the digest step reports no
error.  (An open failure on the SHA-256 digest instead returns early,
skipping the MD5 digest — see the counterexample.) -/
theorem checksum_midstream_independence (fs : FS) (fo : FileObj) (e : FSEntry)
    (hl : lookupFS fs (fullPath fo) = some e)
    (h1 : e.shaOpenOk = true) (h2 : e.shaCopyOk = false)
    (h3 : e.md5OpenOk = true) (h4 : e.md5CopyOk = true)
    (hE : fo.IsExists = true) (hR : fo.IsReadable = true)
    (hs : fo.Set.ChecksumSHA256 = true) (hm : fo.Set.ChecksumMD5 = true) :
    (setChecksums fs fo).1.SHA256 = [] ∧
    (setChecksums fs fo).1.ChecksumSHA256 = EMPTY ∧
    (setChecksums fs fo).1.MD5 = e.md5 ∧
    (setChecksums fs fo).1.ChecksumMD5 = hexStr e.md5 ∧
    (setChecksums fs fo).2 = false := by
  have hx : hexStr ([] : List Nat) = EMPTY := rfl
  simp only [fullPath] at hl
  have hsha : getSHA256 fs (joinPath fo.Root fo.Filename) = ([], hexStr [], false) := by
    simp [getSHA256, hl, h1, h2]
  have hmd5 : getMD5 fs (joinPath fo.Root fo.Filename) =
      (e.md5, hexStr e.md5, false) := by
    simp [getMD5, hl, h3, h4]
  simp only [setChecksums, fullPath, hE, hR, Bool.and_self, if_true, hs, hm, hsha,
    hx, hmd5]
  simp

/-- C6 amended witness: the mid-stream-failure fixture. -/
theorem checksum_midstream_independence_witness :
    (setChecksums fsW6 foW6).1.SHA256 = [] ∧
    (setChecksums fsW6 foW6).1.ChecksumSHA256 = EMPTY ∧
    (setChecksums fsW6 foW6).1.MD5 = entW6.md5 ∧
    (setChecksums fsW6 foW6).1.ChecksumMD5 = hexStr entW6.md5 ∧
    (setChecksums fsW6 foW6).2 = false :=
  checksum_midstream_independence fsW6 foW6 entW6 (by decide) rfl rfl rfl rfl rfl rfl
    rfl rfl

/-- C6 counterexample: both digest flags are set and the MD5 stream would
succeed with digest bytes `[7]`, but the SHA-256 open failure makes the
digest step return early, so the MD5 digest is never computed or stored —
the pass itself still completes (the timestamp is recorded). -/
theorem checksum_open_failure_cex :
    foC6.MD5 = [] ∧ foC6.ChecksumMD5 = EMPTY ∧ foC6.SHA256 = [] ∧
    foC6.ChecksumSHA256 = EMPTY ∧ foC6.UpdatedAt = 7 ∧
    foC6.Set.ChecksumMD5 = true ∧ lookupFS fsC6 "/a/f" = some entC6 ∧
    entC6.shaOpenOk = false ∧ entC6.md5OpenOk = true ∧ entC6.md5CopyOk = true ∧
    entC6.md5 = [7] := by decide

/-- C7: final-target resolution of a symlink whose chain is broken (the
platform evaluation errors) or terminates at a directory is always
`(EMPTY, false)` — never a path string, never a partial path. -/
theorem finalTarget_dir_or_broken_undefined (fs : FS) (fuel : Nat)
    (path : String) (ep : FSEntry) (hp : lookupFS fs path = some ep)
    (hsl : isSymlinkMode ep.mode = true)
    (hcase : evalSymlinks fs fuel path = none ∨
      ∃ q e, evalSymlinks fs fuel path = some q ∧ lookupFS fs q = some e ∧
        isDirMode e.mode = true) :
    getsFinalTarget fs fuel path (some ep) = (EMPTY, false) := by
  cases fuel with
  | zero => rfl
  | succ n =>
    rw [getsFinalTarget_succ, if_pos hsl]
    rcases hcase with hnone | ⟨q, e, hq, he, hd⟩
    · rw [hnone]
    · rw [hq]
      dsimp only
      obtain ⟨e2, he2, hns⟩ := evalSymlinks_terminal fs (n + 1) path q hq
      have hee : e2 = e := by
        rw [he] at he2
        exact (Option.some.inj he2).symm
      rw [he]
      cases n with
      | zero => rfl
      | succ m =>
        rw [getsFinalTarget_succ]
        rw [if_neg (by rw [← hee]; simp [hns]), if_pos hd]

/-- C7 witness: a symlink pointing directly at a directory resolves to
undefined. -/
theorem finalTarget_dir_or_broken_undefined_witness :
    getsFinalTarget fsW7 3 "/a" (some entW7a) = (EMPTY, false) :=
  finalTarget_dir_or_broken_undefined fsW7 3 "/a" entW7a (by decide) (by decide)
    (Or.inr ⟨"/d", entW7d, by decide, by decide, by decide⟩)

/-- C9 (amended): the enumeration fails with the explicit human-readable
error exactly when the root lists no entries or only directories; a symlink
counts as a non-directory entry for this check, so a root whose only entry
is a symlink resolving into a directory passes the check, gets skipped by
the loop, and yields an empty error-free result (see the counterexample). -/
theorem run_all_dirs_error (fs : FS) (dirs : DirTable) (fuel : Nat) (now : Int)
    (w : Worker) (ds : List DirEnt)
    (h1 : w.singleFileMode = false) (h2 : w.RootPath ≠ EMPTY)
    (h3 : readDir dirs w.RootPath = some ds)
    (h4 : ∀ d ∈ ds, isDirMode d.mode = true) :
    run fs dirs fuel now w =
      Except.error ("StartingPath has no non-directory entries: " ++ w.RootPath) := by
  have hv : validate fs w = true := by
    unfold validate
    rw [if_neg h2, h1]
    simp
  have hh : hasEntries dirs w = false := by
    unfold hasEntries
    cases ds with
    | nil =>
      rw [h3]
      simp
    | cons d t =>
      rw [h3]
      dsimp only
      rw [if_neg (by simp)]
      simp only [List.any_eq_false]
      intro x hx
      simp [h4 x hx]
  unfold run
  rw [hv]
  rw [if_neg (by simp)]
  rw [if_pos ⟨h1, hh⟩]

/-- C9 amended witness: a root listing only a sub-directory produces the
explicit error. -/
theorem run_all_dirs_error_witness :
    run fsC9 dirsW9 9 7 wC9 =
      Except.error ("StartingPath has no non-directory entries: " ++ wC9.RootPath) :=
  run_all_dirs_error fsC9 dirsW9 9 7 wC9 [{ name := "sub", mode := MODE_DIR }]
    rfl (by decide) rfl (by decide)

/-- C9 counterexample: a root whose sole entry is a symlink resolving into a
directory — so it has no usable entries — does not make the enumeration
fail: `run` returns an empty successful result. -/
theorem run_symlinkdir_empty_ok_cex :
    run fsC9 dirsC9 9 7 wC9 = Except.ok [] ∧
    readDir dirsC9 "/r" = some [{ name := "lnk", mode := MODE_SYMLINK }] ∧
    linkLeadsToDir fsC9 9 (joinPath "/r" "lnk") = true :=
  ⟨rfl, rfl, rfl⟩

end Objectify
